import Mathlib

/-!
Verification development for the AI-STORYBOARD-MAKER repository.

The embedding models the PostgreSQL tables of `database_schema.sql`
as lists of rows, the route handlers of `src/server/routes/projects.js`
as pure state-passing functions, and the two variants of the AI service
present in the sources:
  * `AiService` embeds `src/server/services/aiService.js` (the file the
    routes import): on a missing key or a failed external call it falls
    back to fixed mock values and never raises;
  * `Part006` embeds the aiService variant in `src/unnamed/part_006`:
    on a missing key or a failed external call it raises, classifying
    image errors by HTTP status.
External HTTP calls are abstracted by an explicit outcome argument
(`Except` value / a generator function), so each handler is a total
function of the database state, the request and those outcomes.
-/

/-- A row of the `projects` table (`database_schema.sql`): `title` is
NOT NULL, `original_input` is nullable. Timestamps are modelled as
naturals taken from the database clock. -/
structure Project where
  id : Nat
  user_id : Nat
  title : String
  original_input : Option String
  created_at : Nat
  updated_at : Nat
deriving DecidableEq

/-- A row of the `scenes` table: `project_id` and `scene_number` are
NOT NULL; the six text columns are nullable, in particular `image_url`
is NULL until an image is generated. -/
structure Scene where
  id : Nat
  project_id : Nat
  scene_number : Int
  title : Option String
  location : Option String
  description : Option String
  action : Option String
  mood : Option String
  image_prompt : Option String
  image_url : Option String
  created_at : Nat
deriving DecidableEq

/-- One scene object as produced by the script generator
(`generateScript`): all seven fields present, per the prompt contract in
`aiService.js`. -/
structure SceneData where
  scene_number : Int
  title : String
  location : String
  description : String
  action : String
  mood : String
  image_prompt : String
deriving DecidableEq

/-- The database state: the two tables the project routes touch, the
SERIAL counters, and a frozen clock for `DEFAULT CURRENT_TIMESTAMP`. -/
structure DB where
  projects : List Project
  scenes : List Scene
  nextProjectId : Nat
  nextSceneId : Nat
  clock : Nat
deriving DecidableEq

/-- An HTTP outcome as the route handlers produce it:
`res.json(body)`, `res.status(404).send(msg)`, or
`res.status(500).send(msg)`. -/
inductive HttpResult (α : Type) where
  | ok : α → HttpResult α
  | notFound : String → HttpResult α
  | serverError : String → HttpResult α
deriving DecidableEq

/-- True exactly on a 200 response. -/
def HttpResult.isOk {α : Type} : HttpResult α → Bool
  | .ok _ => true
  | _ => false

/-! ## Embedded SQL queries -/

/-- `SELECT * FROM projects WHERE id = $1 AND user_id = $2`
(first row, as the handlers use at most `rows[0]`). -/
def selectProjectOwned (db : DB) (pid uid : Nat) : Option Project :=
  db.projects.find? (fun p => p.id == pid && p.user_id == uid)

/-- The rows of `scenes` with the given `project_id`, in table order. -/
def scenesOfProject (db : DB) (pid : Nat) : List Scene :=
  db.scenes.filter (fun s => s.project_id == pid)

/-- Insertion step of the `ORDER BY scene_number ASC` sort. -/
def insertByNumber (s : Scene) : List Scene → List Scene
  | [] => [s]
  | t :: ts =>
    if s.scene_number ≤ t.scene_number then s :: t :: ts
    else t :: insertByNumber s ts

/-- Sort a list of scene rows ascending by `scene_number`
(`ORDER BY scene_number ASC`). -/
def orderBySceneNumber : List Scene → List Scene
  | [] => []
  | s :: ss => insertByNumber s (orderBySceneNumber ss)

/-- `SELECT * FROM scenes WHERE project_id = $1 ORDER BY scene_number ASC`. -/
def selectScenesOrdered (db : DB) (pid : Nat) : List Scene :=
  orderBySceneNumber (scenesOfProject db pid)

/-- `SELECT s.* FROM scenes s JOIN projects p ON s.project_id = p.id
WHERE s.id = $1 AND p.user_id = $2` (first row). -/
def sceneOwnedCheck (db : DB) (sid uid : Nat) : Option Scene :=
  db.scenes.find? (fun s =>
    s.id == sid && db.projects.any (fun p => p.id == s.project_id && p.user_id == uid))

/-- `INSERT INTO projects (user_id, title, original_input) VALUES ...
RETURNING *`.  A missing `title` (JS `undefined`, sent as SQL NULL)
violates the NOT NULL constraint and the query rejects;
`original_input` is nullable and stores NULL. -/
def insertProject (db : DB) (uid : Nat) (title input : Option String) :
    Except String (Project × DB) :=
  match title with
  | none => .error "null value in column title violates not-null constraint"
  | some t =>
    let p : Project :=
      { id := db.nextProjectId, user_id := uid, title := t, original_input := input
        created_at := db.clock, updated_at := db.clock }
    .ok (p, { db with projects := db.projects ++ [p],
                      nextProjectId := db.nextProjectId + 1 })

/-- `INSERT INTO scenes (project_id, scene_number, title, location,
description, action, mood, image_prompt) VALUES ... RETURNING *`:
`image_url` is not in the column list, so the new row has it NULL. -/
def insertSceneRow (db : DB) (pid : Nat) (sd : SceneData) : Scene × DB :=
  let s : Scene :=
    { id := db.nextSceneId, project_id := pid, scene_number := sd.scene_number
      title := some sd.title, location := some sd.location
      description := some sd.description, action := some sd.action
      mood := some sd.mood, image_prompt := some sd.image_prompt
      image_url := none, created_at := db.clock }
  (s, { db with scenes := db.scenes ++ [s], nextSceneId := db.nextSceneId + 1 })

/-- The per-row transformation of `UPDATE scenes SET image_url = $1
WHERE id = $2`: only the row with the given id gets the new URL. -/
def updRow (sid : Nat) (url : String) (s : Scene) : Scene :=
  if s.id == sid then { s with image_url := some url } else s

/-- `UPDATE scenes SET image_url = $1 WHERE id = $2`. -/
def updateSceneImage (db : DB) (sid : Nat) (url : String) : DB :=
  { db with scenes := db.scenes.map (updRow sid url) }

/-- The row transformation of `UPDATE scenes SET title = $1, location = $2,
description = $3, action = $4, mood = $5 WHERE id = $6`: only those five
columns are in the SET list. -/
def setSceneFields (sid : Nat) (t l d a m : Option String) (s : Scene) : Scene :=
  if s.id == sid then
    { s with title := t, location := l, description := d, action := a, mood := m }
  else s

/-- `DELETE FROM scenes WHERE project_id = $1`. -/
def deleteScenesByProject (db : DB) (pid : Nat) : DB :=
  { db with scenes := db.scenes.filter (fun s => !(s.project_id == pid)) }

/-- `DELETE FROM projects WHERE id = $1`. -/
def deleteProjectRow (db : DB) (pid : Nat) : DB :=
  { db with projects := db.projects.filter (fun p => !(p.id == pid)) }

/-- `db.scenes.find?` by scene id: the row a later `SELECT ... WHERE id`
would return. -/
def findScene (db : DB) (sid : Nat) : Option Scene :=
  db.scenes.find? (fun s => s.id == sid)

/-! ## The AI service, variant `src/server/services/aiService.js`
(the module `projects.js` imports). -/

namespace AiService

/-- The fixed fallback script of `aiService.js` (`MOCK_SCRIPT`). -/
def MOCK_SCRIPT : List SceneData :=
  [ { scene_number := 1
      title := "The Mysterious Discovery"
      location := "Attic - Day"
      description := "A dusty attic filled with old trunks. Sunlight streams through a small window."
      action := "A young boy, SAM (10), opens an old wooden chest and finds a glowing blue key."
      mood := "Mysterious, Wonder"
      image_prompt := "A cinematic shot of a young boy opening an old wooden chest in a dusty attic, glowing blue light emitting from within, dust particles in sunlight, mysterious atmosphere" },
    { scene_number := 2
      title := "The Key\x27s Power"
      location := "Attic - Day"
      description := "The key pulses with light. Sam picks it up, amazed."
      action := "Sam lifts the key. The room slightly vibrates."
      mood := "Magical"
      image_prompt := "A close up of a glowing blue key in a child\x27s hand, magical energy emanating, dusty attic background, cinematic lighting" } ]

/-- The fixed fallback image URL of `aiService.js` (`MOCK_IMAGE_URL`). -/
def MOCK_IMAGE_URL : String :=
  "https://placehold.co/600x400/png?text=AI+Generated+Image+Effect"

/-- Embeds `generateScript` of `src/server/services/aiService.js`.
`apiKey` is `process.env.GEMINI_API_KEY`; `callResult` abstracts the
Gemini call together with `JSON.parse` of its cleaned text (`.error`
covers a failed call and unparseable output alike).  With no key the
mock script is returned; any error is caught and the mock script
returned as fallback.  The function is total: it never raises. -/
def generateScript (apiKey : Option String)
    (callResult : Except String (List SceneData)) : List SceneData :=
  match apiKey with
  | none => MOCK_SCRIPT
  | some _ =>
    match callResult with
    | .ok scenes => scenes
    | .error _ => MOCK_SCRIPT

/-- Embeds `generateImage` of `src/server/services/aiService.js`.
`apiKey` is `process.env.HF_API_KEY`; `callResult` abstracts the
Hugging Face call, `.ok` carrying the base64 of the returned bytes.
With no key the mock URL is returned; any error is caught and the mock
URL returned as fallback.  The function is total: it never raises. -/
def generateImage (apiKey : Option String)
    (callResult : Except String String) : String :=
  match apiKey with
  | none => MOCK_IMAGE_URL
  | some _ =>
    match callResult with
    | .ok base64Image => "data:image/jpeg;base64," ++ base64Image
    | .error _ => MOCK_IMAGE_URL

end AiService

/-! ## The AI service, variant `src/unnamed/part_006`. -/

namespace Part006

/-- Models JavaScript `String.prototype.trim` (drop leading and
trailing whitespace), written over the character list so that it
evaluates by reduction. -/
def strTrim (s : String) : String :=
  ⟨((s.data.dropWhile Char.isWhitespace).reverse.dropWhile Char.isWhitespace).reverse⟩

/-- Outcome of the axios POST when it rejects: either an HTTP error
response (`error.response` present, with its status) or a network-level
failure (no response). -/
inductive HttpFailure where
  | httpError (status : Nat) (message : String)
  | networkError (message : String)
deriving DecidableEq

/-- Embeds `generateScript` of `src/unnamed/part_006`: with no key it
throws the missing-key error; otherwise the outcome of the call (and of
`JSON.parse`) is re-thrown on failure and returned on success. -/
def generateScript (apiKey : Option String)
    (callResult : Except String (List SceneData)) :
    Except String (List SceneData) :=
  match apiKey with
  | none => .error "GEMINI_API_KEY is missing. Check your environment variables."
  | some _ => callResult

/-- The error-classification of `generateImage` in `src/unnamed/part_006`
(step 2.5): statuses 402, 401 and 429 get dedicated messages, any other
HTTP status gets a generic status-bearing message, and a network-level
failure gets a connection message. -/
def classifyImageError (modelId : String) : HttpFailure → String
  | .httpError 402 _ =>
    "Hugging Face API Error: 402 Payment Required for model " ++ modelId ++ "."
  | .httpError 401 _ =>
    "Hugging Face API Error: 401 Unauthorized. Your HF_API_KEY is invalid."
  | .httpError 429 _ => "Hugging Face API Error: 429 Too Many Requests."
  | .httpError status message =>
    "Hugging Face API Error: " ++ toString status ++ " - " ++ message
  | .networkError message => "Error connecting to Hugging Face: " ++ message

/-- Embeds `generateImage` of `src/unnamed/part_006`: the model id
defaults to Stable Diffusion XL, a missing or blank key throws, a
successful call returns the base64 data URL, and a failed call throws
the classified error message — the failure is never swallowed. -/
def generateImage (modelIdEnv apiKey : Option String)
    (callResult : Except HttpFailure String) : Except String String :=
  match apiKey with
  | none => .error "HF_API_KEY is missing. Check your environment variables."
  | some k =>
    if strTrim k = "" then
      .error "HF_API_KEY is missing. Check your environment variables."
    else
      match callResult with
      | .ok base64Image => .ok ("data:image/jpeg;base64," ++ base64Image)
      | .error f =>
        .error (classifyImageError
          (modelIdEnv.getD "stabilityai/stable-diffusion-xl-base-1.0") f)

end Part006

/-! ## Route handlers of `src/server/routes/projects.js`.

Each handler takes the caller id `uid` (set by the auth middleware),
the request data, and the outcomes of the external AI calls as explicit
arguments, and returns the HTTP outcome together with the new database
state. -/

/-- `POST /api/projects` (create project).  `script` is the outcome of
`await generateScript(input)`: `.error` when that call throws (then the
route catch answers 500 and the scenes insert never runs), `.ok` with
the scene list otherwise.  Note the response carries `scenesData`
itself, not the inserted rows. -/
def createProject (db : DB) (uid : Nat) (title input : Option String)
    (script : Except String (List SceneData)) :
    HttpResult (Project × List SceneData) × DB :=
  match insertProject db uid title input with
  | .error _ => (.serverError "Server Error", db)
  | .ok (project, db1) =>
    match script with
    | .error _ => (.serverError "Server Error", db1)
    | .ok scenesData =>
      let db2 := scenesData.foldl (fun d sd => (insertSceneRow d project.id sd).2) db1
      (.ok (project, scenesData), db2)

/-- `GET /api/projects/:id`: ownership check, then the project with its
scenes ordered by `scene_number`.  Read-only. -/
def getProject (db : DB) (uid pid : Nat) : HttpResult (Project × List Scene) :=
  match selectProjectOwned db pid uid with
  | none => .notFound "Project not found"
  | some p => .ok (p, selectScenesOrdered db pid)

/-- The value one fan-out task of `POST /:id/generate-images` resolves
to for a scene: a scene that already has an image passes through; a
candidate gets the generated URL on success and is returned unchanged
on failure (the inner try/catch). -/
def sceneTaskResult (gen : Option String → Except String String) (s : Scene) : Scene :=
  match s.image_url with
  | some _ => s
  | none =>
    match gen s.image_prompt with
    | .ok url => { s with image_url := some url }
    | .error _ => s

/-- The database effect of one fan-out task: only a candidate scene
whose generation succeeded performs the `UPDATE scenes SET image_url`. -/
def sceneTaskUpdate (gen : Option String → Except String String)
    (db : DB) (s : Scene) : DB :=
  match s.image_url with
  | some _ => db
  | none =>
    match gen s.image_prompt with
    | .ok url => updateSceneImage db s.id url
    | .error _ => db

/-- The prompts for which a fan-out over `scenes` invokes the external
image generator: exactly the scenes lacking an image (the `if
(!scene.image_url)` guard), whether the call then succeeds or fails. -/
def generatorCalls (scenes : List Scene) : List (Option String) :=
  scenes.filterMap (fun s =>
    match s.image_url with
    | none => some s.image_prompt
    | some _ => none)

/-- `POST /api/projects/:id/generate-images`.  `gen` abstracts
`generateImage`: `.ok url` when the awaited call resolves, `.error`
when it rejects.  The handler checks ownership, loads the scenes
ordered by `scene_number`, maps one independent task over each
(`Promise.all` keeps array order; each task touches only its own row),
and answers with the settled scene list.  The third component records
the prompts sent to the generator. -/
def generateImages (gen : Option String → Except String String)
    (db : DB) (uid pid : Nat) :
    HttpResult (List Scene) × DB × List (Option String) :=
  match selectProjectOwned db pid uid with
  | none => (.notFound "Project not found", db, [])
  | some _ =>
    (.ok ((selectScenesOrdered db pid).map (sceneTaskResult gen)),
     (selectScenesOrdered db pid).foldl (sceneTaskUpdate gen) db,
     generatorCalls (selectScenesOrdered db pid))

/-- `DELETE /api/projects/:id`: ownership check, then delete the scenes
of the project, then the project row, then a success message. -/
def deleteProject (db : DB) (uid pid : Nat) : HttpResult String × DB :=
  match selectProjectOwned db pid uid with
  | none => (.notFound "Project not found", db)
  | some _ =>
    let db1 := deleteScenesByProject db pid
    let db2 := deleteProjectRow db1 pid
    (.ok "Project deleted successfully", db2)

/-- `PUT /api/projects/scenes/:sceneId`: ownership check through the
join to `projects`, then the five-column UPDATE; the response body is
`result.rows[0]`, the updated row.  Absent body fields arrive as SQL
NULL (`none`): the route performs no validation. -/
def updateScene (db : DB) (uid sid : Nat) (t l d a m : Option String) :
    HttpResult (Option Scene) × DB :=
  match sceneOwnedCheck db sid uid with
  | none => (.notFound "Scene not found or unauthorized", db)
  | some _ =>
    (.ok ((db.scenes.map (setSceneFields sid t l d a m)).find? (fun s => s.id == sid)),
     { db with scenes := db.scenes.map (setSceneFields sid t l d a m) })

/-- Ascending order of two scene rows by `scene_number`. -/
def sceneNumLE (a b : Scene) : Prop := a.scene_number ≤ b.scene_number

/-- Ascending order of two generated scene objects by `scene_number`. -/
def dataNumLE (a b : SceneData) : Prop := a.scene_number ≤ b.scene_number

instance : DecidableRel sceneNumLE :=
  fun s1 s2 => inferInstanceAs (Decidable (s1.scene_number ≤ s2.scene_number))

instance : DecidableRel dataNumLE :=
  fun d1 d2 => inferInstanceAs (Decidable (d1.scene_number ≤ d2.scene_number))

/-! ## Concrete example states used to instantiate the theorems -/

/-- An empty database, as right after running the schema script. -/
def db0 : DB :=
  { projects := [], scenes := [], nextProjectId := 1, nextSceneId := 1, clock := 0 }

/-- Example project row: project 1 owned by user 1. -/
def projW : Project :=
  { id := 1, user_id := 1, title := "Robot Film"
    original_input := some "a robot finds a flower", created_at := 0, updated_at := 0 }

/-- Example scene row 1 of project 1, no image yet. -/
def sceneW1 : Scene :=
  { id := 1, project_id := 1, scene_number := 1, title := some "Opening"
    location := some "Garden", description := some "The robot walks in"
    action := some "It sees a flower", mood := some "calm"
    image_prompt := some "p1", image_url := none, created_at := 0 }

/-- Example scene row 2 of project 1, no image yet. -/
def sceneW2 : Scene :=
  { id := 2, project_id := 1, scene_number := 2, title := some "Closing"
    location := some "Garden", description := some "The robot kneels"
    action := some "It waters the flower", mood := some "warm"
    image_prompt := some "p2", image_url := none, created_at := 0 }

/-- Example database: one user-1 project with two image-less scenes. -/
def dbW : DB :=
  { projects := [projW], scenes := [sceneW1, sceneW2]
    nextProjectId := 2, nextSceneId := 3, clock := 0 }

/-- Example database where both scenes already carry an image. -/
def dbImg : DB :=
  { projects := [projW]
    scenes := [{ sceneW1 with image_url := some "u1" },
               { sceneW2 with image_url := some "u2" }]
    nextProjectId := 2, nextSceneId := 3, clock := 0 }

/-- An image generator for the examples: fails on prompt `p1`, succeeds
with `IMG` on every other prompt. -/
def genW : Option String → Except String String :=
  fun p => if p == some "p1" then .error "boom" else .ok "IMG"

/-! ## Helper lemmas -/

theorem updRow_id (sid : Nat) (url : String) (r : Scene) : (updRow sid url r).id = r.id := by
  unfold updRow; split <;> rfl

theorem find?_map_pres {α : Type} (f : α → α) (p : α → Bool) (l : List α)
    (hp : ∀ r, p (f r) = p r) : (l.map f).find? p = (l.find? p).map f := by
  induction l with
  | nil => rfl
  | cons x xs ih =>
    simp only [List.map_cons, List.find?]
    rw [hp x]
    cases hx : p x <;> simp [ih]

theorem findScene_updateSceneImage (db : DB) (sid tid : Nat) (url : String) :
    findScene (updateSceneImage db sid url) tid = (findScene db tid).map (updRow sid url) := by
  unfold findScene updateSceneImage
  exact find?_map_pres _ _ _ (fun r => by rw [updRow_id])

theorem findScene_updateSceneImage_ne (db : DB) (sid tid : Nat) (url : String)
    (h : tid ≠ sid) : findScene (updateSceneImage db sid url) tid = findScene db tid := by
  rw [findScene_updateSceneImage]
  cases hf : findScene db tid with
  | none => rfl
  | some r =>
    have hr : r.id = tid := by
      have := List.find?_some hf
      simpa using this
    simp only [Option.map_some']
    unfold updRow
    rw [if_neg (by simp [hr, h])]

theorem scenes_map_id_updateSceneImage (db : DB) (sid : Nat) (url : String) :
    (updateSceneImage db sid url).scenes.map Scene.id = db.scenes.map Scene.id := by
  unfold updateSceneImage
  simp only [List.map_map]
  exact List.map_congr_left (fun r _ => updRow_id sid url r)

theorem find?_id_of_mem_nodup (l : List Scene) (s : Scene) (hmem : s ∈ l)
    (hnd : (l.map Scene.id).Nodup) : l.find? (fun r => r.id == s.id) = some s := by
  induction l with
  | nil => cases hmem
  | cons x xs ih =>
    rw [List.map_cons, List.nodup_cons] at hnd
    rcases List.mem_cons.mp hmem with h | h
    · subst h
      simp [List.find?]
    · have hx : x.id ≠ s.id := by
        intro hcontra
        exact hnd.1 (hcontra ▸ List.mem_map_of_mem Scene.id h)
      simp only [List.find?]
      rw [show (x.id == s.id) = false from by simp [hx]]
      exact ih h hnd.2

theorem findScene_of_mem_nodup (db : DB) (s : Scene) (hmem : s ∈ db.scenes)
    (hnd : (db.scenes.map Scene.id).Nodup) : findScene db s.id = some s :=
  find?_id_of_mem_nodup db.scenes s hmem hnd

/-- A fold of fan-out tasks none of which can write the row `tid` (every
listed scene with that id already has an image, or its generation call
fails) leaves the row `tid` unchanged. -/
theorem foldl_sceneTaskUpdate_preserve (gen : Option String → Except String String)
    (l : List Scene) (db : DB) (tid : Nat)
    (h : ∀ t ∈ l, t.id = tid → t.image_url.isSome ∨ ∃ e, gen t.image_prompt = .error e) :
    findScene (l.foldl (sceneTaskUpdate gen) db) tid = findScene db tid := by
  induction l generalizing db with
  | nil => rfl
  | cons t ts ih =>
    simp only [List.foldl_cons]
    have hts : ∀ t' ∈ ts, t'.id = tid →
        t'.image_url.isSome ∨ ∃ e, gen t'.image_prompt = .error e :=
      fun t' ht' => h t' (List.mem_cons_of_mem t ht')
    rw [ih (sceneTaskUpdate gen db t) hts]
    unfold sceneTaskUpdate
    cases hurl : t.image_url with
    | some u => rfl
    | none =>
      cases hg : gen t.image_prompt with
      | error e => rfl
      | ok url =>
        have hne : tid ≠ t.id := by
          intro hcontra
          rcases h t (List.mem_cons_self t ts) hcontra.symm with hsome | ⟨e, he⟩
          · rw [hurl] at hsome
            exact absurd hsome (by simp)
          · rw [hg] at he
            cases he
        exact findScene_updateSceneImage_ne db t.id tid url hne

/-- A fold of fan-out tasks leaves the id column (and hence its
Nodup-ness) untouched, and never touches the `projects` table. -/
theorem foldl_sceneTaskUpdate_frame (gen : Option String → Except String String)
    (l : List Scene) (db : DB) :
    (l.foldl (sceneTaskUpdate gen) db).scenes.map Scene.id = db.scenes.map Scene.id ∧
    (l.foldl (sceneTaskUpdate gen) db).projects = db.projects := by
  induction l generalizing db with
  | nil => exact ⟨rfl, rfl⟩
  | cons t ts ih =>
    simp only [List.foldl_cons]
    refine ⟨?_, ?_⟩
    · rw [(ih (sceneTaskUpdate gen db t)).1]
      unfold sceneTaskUpdate
      cases t.image_url with
      | some u => rfl
      | none =>
        cases gen t.image_prompt with
        | error e => rfl
        | ok url => exact scenes_map_id_updateSceneImage db t.id url
    · rw [(ih (sceneTaskUpdate gen db t)).2]
      unfold sceneTaskUpdate
      cases t.image_url with
      | some u => rfl
      | none =>
        cases gen t.image_prompt with
        | error e => rfl
        | ok url => rfl

/-- After the fold of fan-out tasks, a candidate scene of the list whose
generation succeeded has its generated URL persisted on its row. -/
theorem foldl_sceneTaskUpdate_success (gen : Option String → Except String String)
    (l : List Scene) (db : DB) (s : Scene) (u : String)
    (hmem : s ∈ l) (hurl : s.image_url = none) (hgen : gen s.image_prompt = .ok u)
    (hnd : (l.map Scene.id).Nodup) (hfind : findScene db s.id = some s) :
    findScene (l.foldl (sceneTaskUpdate gen) db) s.id =
      some { s with image_url := some u } := by
  induction l generalizing db with
  | nil => cases hmem
  | cons t ts ih =>
    simp only [List.foldl_cons]
    rw [List.map_cons, List.nodup_cons] at hnd
    rcases List.mem_cons.mp hmem with h | h
    · subst h
      have hstep : sceneTaskUpdate gen db s = updateSceneImage db s.id u := by
        unfold sceneTaskUpdate
        rw [hurl, hgen]
      rw [hstep]
      have hafter : findScene (updateSceneImage db s.id u) s.id =
          some { s with image_url := some u } := by
        rw [findScene_updateSceneImage, hfind]
        simp only [Option.map_some']
        unfold updRow
        rw [if_pos (by simp)]
      rw [foldl_sceneTaskUpdate_preserve gen ts _ s.id ?_, hafter]
      intro t' ht' hid
      exact absurd (hid ▸ List.mem_map_of_mem Scene.id ht') hnd.1
    · have hne : s.id ≠ t.id := by
        intro hcontra
        exact hnd.1 (hcontra ▸ List.mem_map_of_mem Scene.id h)
      have hstep : findScene (sceneTaskUpdate gen db t) s.id = some s := by
        unfold sceneTaskUpdate
        cases t.image_url with
        | some v => exact hfind
        | none =>
          cases gen t.image_prompt with
          | error e => exact hfind
          | ok url => rw [findScene_updateSceneImage_ne db t.id s.id url hne]; exact hfind
      exact ih (sceneTaskUpdate gen db t) h hnd.2 hstep

/-- When every listed scene already has an image, the fan-out fold is a
no-op on the database. -/
theorem foldl_sceneTaskUpdate_noop (gen : Option String → Except String String)
    (l : List Scene) (db : DB) (h : ∀ s ∈ l, s.image_url.isSome) :
    l.foldl (sceneTaskUpdate gen) db = db := by
  induction l generalizing db with
  | nil => rfl
  | cons t ts ih =>
    simp only [List.foldl_cons]
    have ht : (sceneTaskUpdate gen db t) = db := by
      unfold sceneTaskUpdate
      cases hurl : t.image_url with
      | some u => rfl
      | none =>
        have := h t (List.mem_cons_self t ts)
        rw [hurl] at this
        exact absurd this (by simp)
    rw [ht]
    exact ih db (fun s hs => h s (List.mem_cons_of_mem t hs))

/-- When every listed scene already has an image, each fan-out task
resolves to its scene unchanged. -/
theorem map_sceneTaskResult_id (gen : Option String → Except String String)
    (l : List Scene) (h : ∀ s ∈ l, s.image_url.isSome) :
    l.map (sceneTaskResult gen) = l := by
  induction l with
  | nil => rfl
  | cons t ts ih =>
    simp only [List.map_cons]
    have ht : sceneTaskResult gen t = t := by
      unfold sceneTaskResult
      cases hurl : t.image_url with
      | some u => rfl
      | none =>
        have := h t (List.mem_cons_self t ts)
        rw [hurl] at this
        exact absurd this (by simp)
    rw [ht, ih (fun s hs => h s (List.mem_cons_of_mem t hs))]

/-- When every listed scene already has an image, no generator call is
made. -/
theorem generatorCalls_nil (l : List Scene) (h : ∀ s ∈ l, s.image_url.isSome) :
    generatorCalls l = [] := by
  unfold generatorCalls
  induction l with
  | nil => rfl
  | cons t ts ih =>
    rw [List.filterMap_cons]
    have ht := h t (List.mem_cons_self t ts)
    cases hurl : t.image_url with
    | none => rw [hurl] at ht; exact absurd ht (by simp)
    | some u => simpa using ih (fun s hs => h s (List.mem_cons_of_mem t hs))

/-- A fan-out task never changes the `scene_number` of its scene. -/
theorem sceneNum_sceneTaskResult (gen : Option String → Except String String)
    (s : Scene) : (sceneTaskResult gen s).scene_number = s.scene_number := by
  unfold sceneTaskResult
  cases s.image_url with
  | some u => rfl
  | none => cases gen s.image_prompt <;> rfl

theorem perm_insertByNumber (s : Scene) (l : List Scene) :
    List.Perm (insertByNumber s l) (s :: l) := by
  induction l with
  | nil => exact List.Perm.refl _
  | cons t ts ih =>
    unfold insertByNumber
    split
    · exact List.Perm.refl _
    · exact (List.Perm.cons t ih).trans (List.Perm.swap s t ts)

theorem perm_orderBySceneNumber (l : List Scene) :
    List.Perm (orderBySceneNumber l) l := by
  induction l with
  | nil => exact List.Perm.refl _
  | cons t ts ih =>
    exact (perm_insertByNumber t (orderBySceneNumber ts)).trans (List.Perm.cons t ih)

theorem pairwise_insertByNumber (s : Scene) (l : List Scene)
    (h : l.Pairwise sceneNumLE) : (insertByNumber s l).Pairwise sceneNumLE := by
  induction l with
  | nil => simp [insertByNumber, List.pairwise_cons]
  | cons t ts ih =>
    unfold insertByNumber
    rw [List.pairwise_cons] at h
    split
    · rename_i hle
      rw [List.pairwise_cons]
      refine ⟨?_, List.pairwise_cons.mpr h⟩
      intro x hx
      rcases List.mem_cons.mp hx with hx | hx
      · subst hx; exact hle
      · exact le_trans hle (h.1 x hx)
    · rename_i hnle
      rw [List.pairwise_cons]
      refine ⟨?_, ih h.2⟩
      intro x hx
      rcases List.mem_cons.mp ((perm_insertByNumber s ts).mem_iff.mp hx) with hx | hx
      · subst hx; exact le_of_not_le hnle
      · exact h.1 x hx

/-- The `ORDER BY scene_number ASC` model indeed sorts ascending. -/
theorem pairwise_orderBySceneNumber (l : List Scene) :
    (orderBySceneNumber l).Pairwise sceneNumLE := by
  induction l with
  | nil => exact List.Pairwise.nil
  | cons t ts ih => exact pairwise_insertByNumber t (orderBySceneNumber ts) ih

theorem selectScenesOrdered_sorted (db : DB) (pid : Nat) :
    (selectScenesOrdered db pid).Pairwise sceneNumLE :=
  pairwise_orderBySceneNumber _

theorem mem_selectScenesOrdered (db : DB) (pid : Nat) (s : Scene)
    (h : s ∈ selectScenesOrdered db pid) : s ∈ db.scenes ∧ s.project_id = pid := by
  have hmem := (perm_orderBySceneNumber (scenesOfProject db pid)).mem_iff.mp h
  unfold scenesOfProject at hmem
  have := List.mem_filter.mp hmem
  exact ⟨this.1, by simpa using this.2⟩

theorem nodup_selectScenesOrdered (db : DB) (pid : Nat)
    (hnd : (db.scenes.map Scene.id).Nodup) :
    ((selectScenesOrdered db pid).map Scene.id).Nodup := by
  have hperm : List.Perm ((selectScenesOrdered db pid).map Scene.id)
      ((scenesOfProject db pid).map Scene.id) :=
    (perm_orderBySceneNumber (scenesOfProject db pid)).map Scene.id
  refine hperm.nodup_iff.mpr ?_
  unfold scenesOfProject
  exact hnd.sublist ((List.filter_sublist db.scenes).map Scene.id)

/-- Two rows of a table whose id column is duplicate-free and which
share an id are the same row. -/
theorem eq_of_mem_id_nodup (l : List Scene) (a b : Scene) (ha : a ∈ l) (hb : b ∈ l)
    (hid : a.id = b.id) (hnd : (l.map Scene.id).Nodup) : a = b := by
  have h1 : l.find? (fun r => r.id == a.id) = some a := find?_id_of_mem_nodup l a ha hnd
  have h2 : l.find? (fun r => r.id == b.id) = some b := find?_id_of_mem_nodup l b hb hnd
  rw [hid] at h1
  rw [h1] at h2
  exact Option.some.inj h2

/-- A row of the project belongs to the scene list the route loads. -/
theorem mem_selectScenesOrdered_of (db : DB) (pid : Nat) (s : Scene)
    (hs : s ∈ db.scenes) (hpid : s.project_id = pid) :
    s ∈ selectScenesOrdered db pid := by
  unfold selectScenesOrdered
  refine (perm_orderBySceneNumber (scenesOfProject db pid)).mem_iff.mpr ?_
  unfold scenesOfProject
  exact List.mem_filter.mpr ⟨hs, by simp [hpid]⟩

/-- A project select resolves to no row exactly when no project row has
both the requested id and the caller as owner. -/
theorem selectProjectOwned_eq_none (db : DB) (pid uid : Nat)
    (h : ∀ p ∈ db.projects, p.id = pid → p.user_id ≠ uid) :
    selectProjectOwned db pid uid = none := by
  unfold selectProjectOwned
  rw [List.find?_eq_none]
  intro p hp hpred
  rw [Bool.and_eq_true, beq_iff_eq, beq_iff_eq] at hpred
  exact h p hp hpred.1 hpred.2

/-- The scene-ownership join resolves to no row exactly when no scene
row with the requested id has its parent project owned by the caller. -/
theorem sceneOwnedCheck_eq_none (db : DB) (sid uid : Nat)
    (h : ∀ s ∈ db.scenes, s.id = sid →
      ∀ p ∈ db.projects, p.id = s.project_id → p.user_id ≠ uid) :
    sceneOwnedCheck db sid uid = none := by
  unfold sceneOwnedCheck
  rw [List.find?_eq_none]
  intro s hs hpred
  rw [Bool.and_eq_true, beq_iff_eq, List.any_eq_true] at hpred
  obtain ⟨hsid, p, hp, hpp⟩ := hpred
  rw [Bool.and_eq_true, beq_iff_eq, beq_iff_eq] at hpp
  exact h s hs hsid p hp hpp.1 hpp.2

/-- Scene inserts only append rows: every pre-existing row survives a
create-project fold unchanged. -/
theorem mem_scenes_foldl_insert (l : List SceneData) (db : DB) (pid : Nat) (r : Scene)
    (hr : r ∈ db.scenes) :
    r ∈ (l.foldl (fun d sd => (insertSceneRow d pid sd).2) db).scenes := by
  induction l generalizing db with
  | nil => exact hr
  | cons sd sds ih =>
    simp only [List.foldl_cons]
    exact ih _ (List.mem_append_left _ hr)

/-! ## Claim theorems -/

/-- C2: for every authenticated request, if no project row has both the
requested id and the caller as owner (the id is absent or owned by
another user — the two cases are indistinguishable in the hypothesis),
then read, delete and generate-images answer the constant not-found
response and leave the database untouched; likewise a scene id whose
parent project is not owned by the caller makes the scene update answer
its constant not-found response and leave the database untouched.  A
caller therefore never reads or affects another user's project or
scene. -/
theorem ownership_gate (db : DB) (uid pid sid : Nat)
    (gen : Option String → Except String String) (t l d a m : Option String)
    (hP : ∀ p ∈ db.projects, p.id = pid → p.user_id ≠ uid)
    (hS : ∀ s ∈ db.scenes, s.id = sid →
      ∀ p ∈ db.projects, p.id = s.project_id → p.user_id ≠ uid) :
    getProject db uid pid = .notFound "Project not found" ∧
    deleteProject db uid pid = (.notFound "Project not found", db) ∧
    generateImages gen db uid pid = (.notFound "Project not found", db, []) ∧
    updateScene db uid sid t l d a m = (.notFound "Scene not found or unauthorized", db) := by
  have hPO := selectProjectOwned_eq_none db pid uid hP
  have hSO := sceneOwnedCheck_eq_none db sid uid hS
  refine ⟨?_, ?_, ?_, ?_⟩
  · unfold getProject; rw [hPO]
  · unfold deleteProject; rw [hPO]
  · unfold generateImages; rw [hPO]
  · unfold updateScene; rw [hSO]

/-- Witness for C2 at a concrete state: user 2 attacks project 1 and
scene 1 of user 1. -/
theorem ownership_gate_witness :
    ((∀ p ∈ dbW.projects, p.id = 1 → p.user_id ≠ 2) ∧
     (∀ s ∈ dbW.scenes, s.id = 1 →
       ∀ p ∈ dbW.projects, p.id = s.project_id → p.user_id ≠ 2)) ∧
    (getProject dbW 2 1 = .notFound "Project not found" ∧
     deleteProject dbW 2 1 = (.notFound "Project not found", dbW) ∧
     generateImages genW dbW 2 1 = (.notFound "Project not found", dbW, []) ∧
     updateScene dbW 2 1 (some "x") none none none none =
       (.notFound "Scene not found or unauthorized", dbW)) :=
  ⟨⟨by decide, by decide⟩,
   ownership_gate dbW 2 1 1 genW (some "x") none none none none (by decide) (by decide)⟩

/-- C9: deleting an owned project answers the success message, leaves no
scene row with that project id (the route deletes the scenes before the
project row), and removes the project row itself. -/
theorem delete_project_cascade (db : DB) (uid pid : Nat) (p : Project)
    (hp : selectProjectOwned db pid uid = some p) :
    (deleteProject db uid pid).1 = .ok "Project deleted successfully" ∧
    scenesOfProject (deleteProject db uid pid).2 pid = [] ∧
    (∀ s ∈ (deleteProject db uid pid).2.scenes, s.project_id ≠ pid) ∧
    (∀ q ∈ (deleteProject db uid pid).2.projects, q.id ≠ pid) := by
  have hdel : deleteProject db uid pid =
      (.ok "Project deleted successfully",
       deleteProjectRow (deleteScenesByProject db pid) pid) := by
    unfold deleteProject
    rw [hp]
  rw [hdel]
  refine ⟨rfl, ?_, ?_, ?_⟩
  · unfold scenesOfProject deleteProjectRow deleteScenesByProject
    simp [List.filter_filter]
  · intro s hs
    unfold deleteProjectRow deleteScenesByProject at hs
    have := List.mem_filter.mp hs
    simpa using this.2
  · intro q hq
    unfold deleteProjectRow deleteScenesByProject at hq
    have := List.mem_filter.mp hq
    simpa using this.2

/-- Witness for C9: deleting project 1 of `dbW` (which has 2 scenes). -/
theorem delete_project_cascade_witness :
    selectProjectOwned dbW 1 1 = some projW ∧
    ((deleteProject dbW 1 1).1 = .ok "Project deleted successfully" ∧
     scenesOfProject (deleteProject dbW 1 1).2 1 = [] ∧
     (∀ s ∈ (deleteProject dbW 1 1).2.scenes, s.project_id ≠ 1) ∧
     (∀ q ∈ (deleteProject dbW 1 1).2.projects, q.id ≠ 1)) :=
  ⟨by decide, delete_project_cascade dbW 1 1 projW (by decide)⟩

/-- C4: on an owned project whose scenes all carry an image, the
generate-images operation makes zero generator calls, performs zero
scene updates (the database is returned unchanged), and answers the
scene list as loaded; a second invocation — with any generator — returns
the identical result. -/
theorem generate_images_idempotent (gen gen2 : Option String → Except String String)
    (db : DB) (uid pid : Nat) (p : Project)
    (hp : selectProjectOwned db pid uid = some p)
    (hall : ∀ s ∈ selectScenesOrdered db pid, s.image_url.isSome) :
    generateImages gen db uid pid = (.ok (selectScenesOrdered db pid), db, []) ∧
    generateImages gen2 (generateImages gen db uid pid).2.1 uid pid =
      generateImages gen db uid pid := by
  have key : ∀ g : Option String → Except String String,
      generateImages g db uid pid = (.ok (selectScenesOrdered db pid), db, []) := by
    intro g
    unfold generateImages
    rw [hp, map_sceneTaskResult_id g _ hall, foldl_sceneTaskUpdate_noop g _ db hall,
        generatorCalls_nil _ hall]
  refine ⟨key gen, ?_⟩
  rw [key gen]
  exact key gen2

/-- Witness for C4: both scenes of `dbImg` already have images. -/
theorem generate_images_idempotent_witness :
    (selectProjectOwned dbImg 1 1 = some projW ∧
     (∀ s ∈ selectScenesOrdered dbImg 1, s.image_url.isSome)) ∧
    (generateImages genW dbImg 1 1 = (.ok (selectScenesOrdered dbImg 1), dbImg, []) ∧
     generateImages genW (generateImages genW dbImg 1 1).2.1 1 1 =
       generateImages genW dbImg 1 1) :=
  ⟨⟨by decide, by decide⟩,
   generate_images_idempotent genW genW dbImg 1 1 projW (by decide) (by decide)⟩

/-- C5: every read path that returns scenes returns them ascending by
`scene_number`: the get-project read and the generate-images response
are sorted by construction (`ORDER BY scene_number ASC`, and the
fan-out preserves each scene's number); the create-project response
returns the generator output itself, which is sorted whenever the
generator met its ascending-`scene_number` contract. -/
theorem scenes_sorted_read_paths :
    (∀ db uid pid p scs, getProject db uid pid = .ok (p, scs) →
      scs.Pairwise sceneNumLE) ∧
    (∀ gen db uid pid scs rest, generateImages gen db uid pid = (.ok scs, rest) →
      scs.Pairwise sceneNumLE) ∧
    (∀ db uid t i sd proj scs db2, sd.Pairwise dataNumLE →
      createProject db uid t i (.ok sd) = (.ok (proj, scs), db2) →
      scs.Pairwise dataNumLE) := by
  refine ⟨?_, ?_, ?_⟩
  · intro db uid pid p scs h
    unfold getProject at h
    cases hsel : selectProjectOwned db pid uid with
    | none => rw [hsel] at h; cases h
    | some q =>
      rw [hsel] at h
      injection h with h1
      injection h1 with h1 h2
      subst h2
      exact selectScenesOrdered_sorted db pid
  · intro gen db uid pid scs rest h
    unfold generateImages at h
    cases hsel : selectProjectOwned db pid uid with
    | none => rw [hsel] at h; cases h
    | some q =>
      rw [hsel] at h
      injection h with h1 h2
      injection h1 with h1
      subst h1
      refine List.Pairwise.map _ ?_ (selectScenesOrdered_sorted db pid)
      intro a b hab
      show (sceneTaskResult gen a).scene_number ≤ (sceneTaskResult gen b).scene_number
      rw [sceneNum_sceneTaskResult, sceneNum_sceneTaskResult]
      exact hab
  · intro db uid t i sd proj scs db2 hsd h
    unfold createProject insertProject at h
    cases t with
    | none => cases h
    | some tt =>
      simp only [] at h
      injection h with h1 h2
      injection h1 with h1
      injection h1 with h1 h3
      subst h3
      exact hsd

/-- Witness for C5 on the get-project read path of `dbW`. -/
theorem scenes_sorted_read_paths_witness :
    getProject dbW 1 1 = .ok (projW, [sceneW1, sceneW2]) ∧
    List.Pairwise sceneNumLE [sceneW1, sceneW2] :=
  ⟨by decide, scenes_sorted_read_paths.1 dbW 1 1 projW [sceneW1, sceneW2] (by decide)⟩

/-- The five-column scene UPDATE never changes a row's id. -/
theorem setSceneFields_id (sid : Nat) (t l d a m : Option String) (s : Scene) :
    (setSceneFields sid t l d a m s).id = s.id := by
  unfold setSceneFields; split <;> rfl

/-- C1 counterexample: with the `generateScript` the route imports
(`src/server/services/aiService.js`), a failed external call does not
make project creation fail: the fallback `MOCK_SCRIPT` is returned, the
operation answers 200, and two mock scene rows are inserted — not zero,
and not a generic server error. -/
theorem create_project_generation_failure_cex :
    AiService.generateScript (some "gemini-key") (.error "fetch failed")
      = AiService.MOCK_SCRIPT ∧
    (createProject db0 1 (some "Robot Film") (some "a robot finds a flower")
        (.ok (AiService.generateScript (some "gemini-key") (.error "fetch failed")))).1.isOk
      = true ∧
    (createProject db0 1 (some "Robot Film") (some "a robot finds a flower")
        (.ok (AiService.generateScript (some "gemini-key") (.error "fetch failed")))).2.scenes.length
      = 2 := by
  refine ⟨rfl, rfl, rfl⟩

/-- C1 (amended): whenever the script-generation call itself throws, the
create-project route answers the generic server error and inserts no
scene row (the scenes table is exactly as before); the `part_006`
variant of `generateScript` does throw — it propagates a missing key or
any call/parse failure — whereas the imported
`src/server/services/aiService.js` variant catches failures and falls
back to `MOCK_SCRIPT`, so with it a failed external call yields a
successful creation that persists the mock scenes. -/
theorem create_project_generation_throw (db : DB) (uid : Nat) (t i : Option String)
    (e : String) :
    (createProject db uid t i (.error e)).1 = .serverError "Server Error" ∧
    (createProject db uid t i (.error e)).2.scenes = db.scenes ∧
    (∀ cr, Part006.generateScript none cr =
      .error "GEMINI_API_KEY is missing. Check your environment variables.") ∧
    (∀ k e2, Part006.generateScript (some k) (.error e2) =
      (.error e2 : Except String (List SceneData))) := by
  refine ⟨?_, ?_, fun cr => rfl, fun k e2 => rfl⟩ <;>
    (unfold createProject insertProject; cases t <;> rfl)

/-- C6 counterexample: in the imported
`src/server/services/aiService.js`, a failing image-generation call is
silently swallowed: a 402 rejection and a 401 rejection both return the
same `MOCK_IMAGE_URL` success value, so the failure kinds are not
distinguishable and no error leaves the layer. -/
theorem image_error_swallowed_cex :
    AiService.generateImage (some "hf-key")
        (.error "Request failed with status code 402") = AiService.MOCK_IMAGE_URL ∧
    AiService.generateImage (some "hf-key")
        (.error "Request failed with status code 401")
      = AiService.generateImage (some "hf-key")
          (.error "Request failed with status code 402") := by
  exact ⟨rfl, rfl⟩

/-- C6 (amended): in the `part_006` variant of the image-generation
layer every failing call is re-thrown as a classified error — never
swallowed — and the five failure kinds (402 quota/payment, 401 invalid
credential, 429 rate-limited, other HTTP status, network-level failure)
map to pairwise distinct error messages; the imported
`src/server/services/aiService.js` variant instead swallows every
failure into `MOCK_IMAGE_URL`. -/
theorem image_errors_classified_part006 (modelIdEnv : Option String) (k : String)
    (f : Part006.HttpFailure) (hk : ¬ Part006.strTrim k = "") :
    Part006.generateImage modelIdEnv (some k) (.error f)
      = .error (Part006.classifyImageError
          (modelIdEnv.getD "stabilityai/stable-diffusion-xl-base-1.0") f) ∧
    List.Pairwise (fun x y => x ≠ y)
      [Part006.classifyImageError "stabilityai/stable-diffusion-xl-base-1.0"
         (.httpError 402 "Request failed"),
       Part006.classifyImageError "stabilityai/stable-diffusion-xl-base-1.0"
         (.httpError 401 "Request failed"),
       Part006.classifyImageError "stabilityai/stable-diffusion-xl-base-1.0"
         (.httpError 429 "Request failed"),
       Part006.classifyImageError "stabilityai/stable-diffusion-xl-base-1.0"
         (.httpError 503 "Request failed"),
       Part006.classifyImageError "stabilityai/stable-diffusion-xl-base-1.0"
         (.networkError "Request failed")] := by
  constructor
  · simp [Part006.generateImage, hk]
  · decide

/-- Witness for C6 (amended) at a network-level failure with a nonblank
key and the default model id. -/
theorem image_errors_classified_part006_witness :
    (¬ Part006.strTrim "hf-key" = "") ∧
    (Part006.generateImage none (some "hf-key") (.error (.networkError "ECONNREFUSED"))
        = .error (Part006.classifyImageError
            ((none : Option String).getD "stabilityai/stable-diffusion-xl-base-1.0")
            (.networkError "ECONNREFUSED")) ∧
     List.Pairwise (fun x y => x ≠ y)
       [Part006.classifyImageError "stabilityai/stable-diffusion-xl-base-1.0"
          (.httpError 402 "Request failed"),
        Part006.classifyImageError "stabilityai/stable-diffusion-xl-base-1.0"
          (.httpError 401 "Request failed"),
        Part006.classifyImageError "stabilityai/stable-diffusion-xl-base-1.0"
          (.httpError 429 "Request failed"),
        Part006.classifyImageError "stabilityai/stable-diffusion-xl-base-1.0"
          (.httpError 503 "Request failed"),
        Part006.classifyImageError "stabilityai/stable-diffusion-xl-base-1.0"
          (.networkError "Request failed")]) :=
  ⟨by decide,
   image_errors_classified_part006 none "hf-key" (.networkError "ECONNREFUSED") (by decide)⟩

/-- C8 counterexample: a scene update whose `mood` field is missing does
not fail with a validation error and does mutate the row: it succeeds
(200), the database changes, and the row's previous mood `calm` is
overwritten with NULL. -/
theorem scene_update_no_validation_cex :
    sceneW1.mood = some "calm" ∧
    (updateScene dbW 1 1 (some "New Title") (some "Garden") (some "desc2")
        (some "act2") none).1.isOk = true ∧
    (updateScene dbW 1 1 (some "New Title") (some "Garden") (some "desc2")
        (some "act2") none).2 ≠ dbW ∧
    (findScene (updateScene dbW 1 1 (some "New Title") (some "Garden") (some "desc2")
        (some "act2") none).2 1).map Scene.mood = some none := by
  refine ⟨rfl, rfl, by decide, rfl⟩

/-- C8 (amended): the routes perform no input validation.  A
create-project request without `title` fails — but with the generic 500
server error raised by the NOT NULL constraint, not a validation
response — and writes nothing; a create-project request without `input`
succeeds and stores NULL as `original_input`; a scene update on an
owned scene succeeds whatever subset of its five fields is present,
writing the missing ones as NULL into the row. -/
theorem crud_missing_fields_behavior (db : DB) (uid sid : Nat) (i : Option String)
    (t l d a m : Option String) (s0 : Scene) (sc : Except String (List SceneData))
    (sd : List SceneData) (tt : String)
    (hnd : (db.scenes.map Scene.id).Nodup)
    (hs : sceneOwnedCheck db sid uid = some s0) :
    createProject db uid none i sc = (.serverError "Server Error", db) ∧
    (createProject db uid (some tt) none (.ok sd)).1
      = .ok ({ id := db.nextProjectId, user_id := uid, title := tt,
               original_input := none, created_at := db.clock,
               updated_at := db.clock }, sd) ∧
    (updateScene db uid sid t l d a m).1
      = .ok (some { s0 with
                    title := t, location := l, description := d,
                    action := a, mood := m }) := by
  refine ⟨by unfold createProject insertProject; rfl,
          by unfold createProject insertProject; rfl, ?_⟩
  have hmem : s0 ∈ db.scenes := List.mem_of_find?_eq_some hs
  have hid : s0.id = sid := by
    have := List.find?_some hs
    rw [Bool.and_eq_true, beq_iff_eq] at this
    exact this.1
  unfold updateScene
  rw [hs]
  have hfind : (db.scenes.map (setSceneFields sid t l d a m)).find?
      (fun s => s.id == sid) = some (setSceneFields sid t l d a m s0) := by
    rw [find?_map_pres (setSceneFields sid t l d a m) (fun s => s.id == sid) db.scenes
          (fun r => by simp [setSceneFields_id])]
    rw [← hid, find?_id_of_mem_nodup db.scenes s0 hmem hnd]
    rfl
  rw [hfind]
  have hset : setSceneFields sid t l d a m s0
      = { s0 with title := t, location := l, description := d, action := a, mood := m } := by
    unfold setSceneFields
    rw [if_pos (by simp [hid])]
  rw [hset]

/-- Witness for C8 (amended) on `dbW`: create without title, create
without input, and a scene update carrying only a new title. -/
theorem crud_missing_fields_behavior_witness :
    ((dbW.scenes.map Scene.id).Nodup ∧ sceneOwnedCheck dbW 1 1 = some sceneW1) ∧
    (createProject dbW 1 none (some "idea") (.error "x")
        = (.serverError "Server Error", dbW) ∧
     (createProject dbW 1 (some "Film2") none (.ok [])).1
        = .ok ({ id := 2, user_id := 1, title := "Film2", original_input := none,
                 created_at := 0, updated_at := 0 }, []) ∧
     (updateScene dbW 1 1 (some "T") none none none none).1
        = .ok (some { sceneW1 with
                      title := some "T", location := none,
                      description := none, action := none, mood := none })) :=
  ⟨⟨by decide, by decide⟩,
   crud_missing_fields_behavior dbW 1 1 (some "idea") (some "T") none none none none
     sceneW1 (.error "x") [] "Film2" (by decide) (by decide)⟩

/-- C3: on an owned project all of whose scenes are candidates (no
image yet), if the generator fails for exactly one scene `f` and
succeeds for every other, the route still answers 200 with one result
per loaded scene: the failed scene is returned unmodified and its row
untouched, while every other scene is returned and persisted with its
newly generated URL — one scene's failure aborts or rolls back
nothing. -/
theorem generate_images_partial_failure
    (gen : Option String → Except String String) (db : DB) (uid pid : Nat)
    (p : Project) (f : Scene) (efail : String)
    (hnd : (db.scenes.map Scene.id).Nodup)
    (hp : selectProjectOwned db pid uid = some p)
    (hcand : ∀ s ∈ selectScenesOrdered db pid, s.image_url = none)
    (hf : f ∈ selectScenesOrdered db pid)
    (hfail : gen f.image_prompt = .error efail) :
    (generateImages gen db uid pid).1
      = .ok ((selectScenesOrdered db pid).map (sceneTaskResult gen)) ∧
    ((selectScenesOrdered db pid).map (sceneTaskResult gen)).length
      = (selectScenesOrdered db pid).length ∧
    sceneTaskResult gen f = f ∧
    findScene (generateImages gen db uid pid).2.1 f.id = some f ∧
    (∀ s ∈ selectScenesOrdered db pid, s ≠ f → ∀ u, gen s.image_prompt = .ok u →
      sceneTaskResult gen s = { s with image_url := some u } ∧
      findScene (generateImages gen db uid pid).2.1 s.id
        = some { s with image_url := some u }) := by
  have hndsel := nodup_selectScenesOrdered db pid hnd
  have hga : (generateImages gen db uid pid).2.1
      = (selectScenesOrdered db pid).foldl (sceneTaskUpdate gen) db := by
    unfold generateImages
    rw [hp]
  refine ⟨?_, List.length_map _ _, ?_, ?_, ?_⟩
  · unfold generateImages
    rw [hp]
  · unfold sceneTaskResult
    rw [hcand f hf, hfail]
  · rw [hga]
    rw [foldl_sceneTaskUpdate_preserve gen _ db f.id ?_]
    · exact findScene_of_mem_nodup db f (mem_selectScenesOrdered db pid f hf).1 hnd
    · intro t' ht' hid
      have ht'f : t' = f :=
        eq_of_mem_id_nodup (selectScenesOrdered db pid) t' f ht' hf hid hndsel
      subst ht'f
      exact Or.inr ⟨efail, hfail⟩
  · intro s hs _ u hu
    refine ⟨?_, ?_⟩
    · unfold sceneTaskResult
      rw [hcand s hs, hu]
    · rw [hga]
      exact foldl_sceneTaskUpdate_success gen _ db s u hs (hcand s hs) hu hndsel
        (findScene_of_mem_nodup db s (mem_selectScenesOrdered db pid s hs).1 hnd)

/-- Witness for C3 on `dbW`: generator `genW` fails on scene 1's prompt
and succeeds on scene 2's. -/
theorem generate_images_partial_failure_witness :
    ((dbW.scenes.map Scene.id).Nodup ∧
     selectProjectOwned dbW 1 1 = some projW ∧
     (∀ s ∈ selectScenesOrdered dbW 1, s.image_url = none) ∧
     sceneW1 ∈ selectScenesOrdered dbW 1 ∧
     genW sceneW1.image_prompt = .error "boom") ∧
    ((generateImages genW dbW 1 1).1
       = .ok ((selectScenesOrdered dbW 1).map (sceneTaskResult genW)) ∧
     ((selectScenesOrdered dbW 1).map (sceneTaskResult genW)).length
       = (selectScenesOrdered dbW 1).length ∧
     sceneTaskResult genW sceneW1 = sceneW1 ∧
     findScene (generateImages genW dbW 1 1).2.1 sceneW1.id = some sceneW1 ∧
     (∀ s ∈ selectScenesOrdered dbW 1, s ≠ sceneW1 → ∀ u, genW s.image_prompt = .ok u →
       sceneTaskResult genW s = { s with image_url := some u } ∧
       findScene (generateImages genW dbW 1 1).2.1 s.id
         = some { s with image_url := some u })) :=
  ⟨⟨by decide, by decide, by decide, by decide, rfl⟩,
   generate_images_partial_failure genW dbW 1 1 projW sceneW1 "boom"
     (by decide) (by decide) (by decide) (by decide) rfl⟩

/-- C7: the scene update writes exactly the five columns of its SET
list — id, project_id, scene_number, image_prompt, image_url and
created_at are unchanged on the updated row, rows with another id are
untouched, and the route's state change is exactly that per-row map
(a 404 leaves the state as is).  Moreover a non-null `image_url` is
never overwritten by any operation: the fan-out writes an image only
when the column is NULL (a row already carrying one survives
generate-images byte for byte), create-project only appends scene rows,
and delete only removes rows. -/
theorem scene_update_frame (db : DB) (uid sid : Nat) (t l d a m : Option String)
    (gen : Option String → Except String String) (pid : Nat)
    (s : Scene) (u : String) (sc : Except String (List SceneData))
    (i ti : Option String)
    (hnd : (db.scenes.map Scene.id).Nodup)
    (hs : s ∈ db.scenes) (hu : s.image_url = some u) :
    (∀ r : Scene,
      (setSceneFields sid t l d a m r).id = r.id ∧
      (setSceneFields sid t l d a m r).project_id = r.project_id ∧
      (setSceneFields sid t l d a m r).scene_number = r.scene_number ∧
      (setSceneFields sid t l d a m r).image_prompt = r.image_prompt ∧
      (setSceneFields sid t l d a m r).image_url = r.image_url ∧
      (setSceneFields sid t l d a m r).created_at = r.created_at) ∧
    (∀ r : Scene, r.id ≠ sid → setSceneFields sid t l d a m r = r) ∧
    (∀ r : Scene, r.id = sid →
      (setSceneFields sid t l d a m r).title = t ∧
      (setSceneFields sid t l d a m r).location = l ∧
      (setSceneFields sid t l d a m r).description = d ∧
      (setSceneFields sid t l d a m r).action = a ∧
      (setSceneFields sid t l d a m r).mood = m) ∧
    ((updateScene db uid sid t l d a m).2.scenes
       = db.scenes.map (setSceneFields sid t l d a m) ∨
     (updateScene db uid sid t l d a m).2 = db) ∧
    findScene (generateImages gen db uid pid).2.1 s.id = some s ∧
    (∀ r ∈ db.scenes, r ∈ (createProject db uid ti i sc).2.scenes) ∧
    (∀ r ∈ (deleteProject db uid pid).2.scenes, r ∈ db.scenes) := by
  refine ⟨?_, ?_, ?_, ?_, ?_, ?_, ?_⟩
  · intro r
    unfold setSceneFields
    split <;> exact ⟨rfl, rfl, rfl, rfl, rfl, rfl⟩
  · intro r hr
    unfold setSceneFields
    rw [if_neg (by simp [hr])]
  · intro r hr
    unfold setSceneFields
    rw [if_pos (by simp [hr])]
    exact ⟨rfl, rfl, rfl, rfl, rfl⟩
  · unfold updateScene
    cases sceneOwnedCheck db sid uid with
    | none => exact Or.inr rfl
    | some s1 => exact Or.inl rfl
  · unfold generateImages
    cases hsel : selectProjectOwned db pid uid with
    | none => exact findScene_of_mem_nodup db s hs hnd
    | some q =>
      rw [foldl_sceneTaskUpdate_preserve gen _ db s.id ?_]
      · exact findScene_of_mem_nodup db s hs hnd
      · intro t' ht' hid
        have ht'db : t' ∈ db.scenes := (mem_selectScenesOrdered db pid t' ht').1
        have ht's : t' = s := eq_of_mem_id_nodup db.scenes t' s ht'db hs hid hnd
        subst ht's
        rw [hu]
        exact Or.inl rfl
  · intro r hr
    unfold createProject insertProject
    cases ti with
    | none => exact hr
    | some tt =>
      cases sc with
      | error e2 => exact hr
      | ok sd => exact mem_scenes_foldl_insert sd _ _ r hr
  · intro r hr
    unfold deleteProject at hr
    cases hsel : selectProjectOwned db pid uid with
    | none => rw [hsel] at hr; exact hr
    | some q =>
      rw [hsel] at hr
      unfold deleteProjectRow deleteScenesByProject at hr
      exact (List.mem_filter.mp hr).1

/-- Witness for C7 on `dbImg`, whose scene 1 carries image `u1`. -/
theorem scene_update_frame_witness :
    ((dbImg.scenes.map Scene.id).Nodup ∧
     { sceneW1 with image_url := some "u1" } ∈ dbImg.scenes ∧
     ({ sceneW1 with image_url := some "u1" } : Scene).image_url = some "u1") ∧
    ((∀ r : Scene,
       (setSceneFields 1 (some "T") none none none none r).id = r.id ∧
       (setSceneFields 1 (some "T") none none none none r).project_id = r.project_id ∧
       (setSceneFields 1 (some "T") none none none none r).scene_number = r.scene_number ∧
       (setSceneFields 1 (some "T") none none none none r).image_prompt = r.image_prompt ∧
       (setSceneFields 1 (some "T") none none none none r).image_url = r.image_url ∧
       (setSceneFields 1 (some "T") none none none none r).created_at = r.created_at) ∧
     (∀ r : Scene, r.id ≠ 1 → setSceneFields 1 (some "T") none none none none r = r) ∧
     (∀ r : Scene, r.id = 1 →
       (setSceneFields 1 (some "T") none none none none r).title = some "T" ∧
       (setSceneFields 1 (some "T") none none none none r).location = none ∧
       (setSceneFields 1 (some "T") none none none none r).description = none ∧
       (setSceneFields 1 (some "T") none none none none r).action = none ∧
       (setSceneFields 1 (some "T") none none none none r).mood = none) ∧
     ((updateScene dbImg 1 1 (some "T") none none none none).2.scenes
        = dbImg.scenes.map (setSceneFields 1 (some "T") none none none none) ∨
      (updateScene dbImg 1 1 (some "T") none none none none).2 = dbImg) ∧
     findScene (generateImages genW dbImg 1 1).2.1
         ({ sceneW1 with image_url := some "u1" } : Scene).id
       = some { sceneW1 with image_url := some "u1" } ∧
     (∀ r ∈ dbImg.scenes,
       r ∈ (createProject dbImg 1 (some "T2") (some "idea") (.ok [])).2.scenes) ∧
     (∀ r ∈ (deleteProject dbImg 1 1).2.scenes, r ∈ dbImg.scenes)) :=
  ⟨⟨by decide, by decide, by decide⟩,
   scene_update_frame dbImg 1 1 (some "T") none none none none genW 1
     { sceneW1 with image_url := some "u1" } "u1" (.ok []) (some "idea") (some "T2")
     (by decide) (by decide) (by decide)⟩

/-- C10: the imported `src/server/services/aiService.js` functions are
total — with a missing key or a failed external call they return
`MOCK_SCRIPT` / `MOCK_IMAGE_URL` instead of raising.  Consequently a
create-project request with a title always answers 200 whatever the
generation outcome; and when every image call fails, a candidate scene
is persisted with the placeholder URL as its `image_url`, so a second
invocation of generate-images skips it and leaves its row unchanged. -/
theorem ai_service_mock_fallback (k e : String)
    (cr : Except String (List SceneData)) (cri : Except String String)
    (db : DB) (uid pid : Nat) (tt : String) (i : Option String)
    (p : Project) (s : Scene)
    (hnd : (db.scenes.map Scene.id).Nodup)
    (hp : selectProjectOwned db pid uid = some p)
    (hs : s ∈ db.scenes) (hspid : s.project_id = pid) (hurl : s.image_url = none) :
    AiService.generateScript none cr = AiService.MOCK_SCRIPT ∧
    AiService.generateScript (some k) (.error e) = AiService.MOCK_SCRIPT ∧
    AiService.generateImage none cri = AiService.MOCK_IMAGE_URL ∧
    AiService.generateImage (some k) (.error e) = AiService.MOCK_IMAGE_URL ∧
    (createProject db uid (some tt) i
        (.ok (AiService.generateScript (some k) cr))).1.isOk = true ∧
    findScene
        (generateImages (fun _ => .ok (AiService.generateImage (some k) (.error e)))
          db uid pid).2.1 s.id
      = some { s with image_url := some AiService.MOCK_IMAGE_URL } ∧
    findScene
        (generateImages (fun _ => .ok (AiService.generateImage (some k) (.error e)))
          (generateImages (fun _ => .ok (AiService.generateImage (some k) (.error e)))
            db uid pid).2.1 uid pid).2.1 s.id
      = some { s with image_url := some AiService.MOCK_IMAGE_URL } := by
  set gf : Option String → Except String String :=
    fun _ => .ok (AiService.generateImage (some k) (.error e)) with hgf
  set db2 := (generateImages gf db uid pid).2.1 with hdb2
  have hframe := foldl_sceneTaskUpdate_frame gf (selectScenesOrdered db pid) db
  have hga : db2 = (selectScenesOrdered db pid).foldl (sceneTaskUpdate gf) db := by
    rw [hdb2]
    unfold generateImages
    rw [hp]
  have hnd2 : (db2.scenes.map Scene.id).Nodup := by
    rw [hga, hframe.1]
    exact hnd
  have h6 : findScene db2 s.id
      = some { s with image_url := some AiService.MOCK_IMAGE_URL } := by
    rw [hga]
    exact foldl_sceneTaskUpdate_success gf _ db s AiService.MOCK_IMAGE_URL
      (mem_selectScenesOrdered_of db pid s hs hspid) hurl rfl
      (nodup_selectScenesOrdered db pid hnd)
      (findScene_of_mem_nodup db s hs hnd)
  have hsel2 : selectProjectOwned db2 pid uid = some p := by
    unfold selectProjectOwned at hp ⊢
    rw [hga, hframe.2]
    exact hp
  refine ⟨rfl, rfl, rfl, rfl, rfl, h6, ?_⟩
  have hga2 : (generateImages gf db2 uid pid).2.1
      = (selectScenesOrdered db2 pid).foldl (sceneTaskUpdate gf) db2 := by
    unfold generateImages
    rw [hsel2]
  rw [hga2]
  rw [foldl_sceneTaskUpdate_preserve gf _ db2 s.id ?_]
  · exact h6
  · intro t' ht' hid
    have ht'db : t' ∈ db2.scenes := (mem_selectScenesOrdered db2 pid t' ht').1
    have hft : findScene db2 t'.id = some t' := findScene_of_mem_nodup db2 t' ht'db hnd2
    rw [hid, h6] at hft
    have ht's := Option.some.inj hft
    left
    rw [← ht's]
    rfl

/-- Witness for C10 on `dbW` with every external call failing. -/
theorem ai_service_mock_fallback_witness :
    ((dbW.scenes.map Scene.id).Nodup ∧
     selectProjectOwned dbW 1 1 = some projW ∧
     sceneW1 ∈ dbW.scenes ∧ sceneW1.project_id = 1 ∧ sceneW1.image_url = none) ∧
    (AiService.generateScript none (.error "x") = AiService.MOCK_SCRIPT ∧
     AiService.generateScript (some "k") (.error "boom") = AiService.MOCK_SCRIPT ∧
     AiService.generateImage none (.error "y") = AiService.MOCK_IMAGE_URL ∧
     AiService.generateImage (some "k") (.error "boom") = AiService.MOCK_IMAGE_URL ∧
     (createProject dbW 1 (some "T") none
         (.ok (AiService.generateScript (some "k") (.error "x")))).1.isOk = true ∧
     findScene
         (generateImages (fun _ => .ok (AiService.generateImage (some "k") (.error "boom")))
           dbW 1 1).2.1 sceneW1.id
       = some { sceneW1 with image_url := some AiService.MOCK_IMAGE_URL } ∧
     findScene
         (generateImages (fun _ => .ok (AiService.generateImage (some "k") (.error "boom")))
           (generateImages (fun _ => .ok (AiService.generateImage (some "k") (.error "boom")))
             dbW 1 1).2.1 1 1).2.1 sceneW1.id
       = some { sceneW1 with image_url := some AiService.MOCK_IMAGE_URL }) :=
  ⟨⟨by decide, by decide, by decide, by decide, by decide⟩,
   ai_service_mock_fallback "k" "boom" (.error "x") (.error "y") dbW 1 1 "T" none
     projW sceneW1 (by decide) (by decide) (by decide) (by decide) (by decide)⟩
